import Mathlib

/-!
Verification development for the XML serialization core of the
`basyx-python-sdk` prototype (file `aas/adapter/xml/xml_serialization.py`).

The Python module is embedded shallowly: enumerations become Lean
inductives, the enumeration tables become total functions, ElementTree
elements become a plain tree datatype, and the function
`abstract_classes_to_xml` becomes a computation in `Except PyError`,
translating the Python statement by statement — including its runtime
errors: the module calls the attribute `Element.text` (which is `None` on a
fresh element) as if it were a method, references the unbound name
`inspect`, and annotates its module-level tables with the unbound name
`Dict` (only `List` is imported from `typing`).
-/

set_option autoImplicit false

namespace Aas

/-- Modelled from the spec: `model.ModelingKind` (the `aas.model` package is
not under the visible sources); its two members are the keys of the
`MODELING_KIND` table. -/
inductive ModelingKind where
  | TEMPLATE
  | INSTANCE
  deriving DecidableEq, Fintype, Repr

/-- Modelled from the spec: `model.AssetKind`; its two members are the keys
of the `ASSET_KIND` table. -/
inductive AssetKind where
  | TYPE
  | INSTANCE
  deriving DecidableEq, Fintype, Repr

/-- Modelled from the spec: `model.KeyElements`; its members are the 24
distinct members referenced as keys of the `KEY_ELEMENTS` table
(lines 36-60 of the source). -/
inductive KeyElements where
  | ASSET
  | ASSET_ADMINISTRATION_SHELL
  | CONCEPT_DESCRIPTION
  | SUBMODEL
  | ANNOTATED_RELATIONSHIP_ELEMENT
  | BASIC_EVENT
  | BLOB
  | CAPABILITY
  | CONCEPT_DICTIONARY
  | DATA_ELEMENT
  | ENTITY
  | EVENT
  | FILE
  | MULTI_LANGUAGE_PROPERTY
  | OPERATION
  | PROPERTY
  | RANGE
  | REFERENCE_ELEMENT
  | RELATIONSHIP_ELEMENT
  | SUBMODEL_ELEMENT
  | SUBMODEL_ELEMENT_COLLECTION
  | VIEW
  | GLOBAL_REFERENCE
  | FRAGMENT_REFERENCE
  deriving DecidableEq, Fintype, Repr

/-- Modelled from the spec: `model.KeyType`; its five members are the keys
of the `KEY_TYPES` table. -/
inductive KeyType where
  | CUSTOM
  | IRDI
  | IRI
  | IDSHORT
  | FRAGMENT_ID
  deriving DecidableEq, Fintype, Repr

/-- Modelled from the spec: `model.IdentifierType`; its three members are
the keys of the `IDENTIFIER_TYPES` table. -/
inductive IdentifierType where
  | CUSTOM
  | IRDI
  | IRI
  deriving DecidableEq, Fintype, Repr

/-- Modelled from the spec: `model.EntityType`; its two members are the
keys of the `ENTITY_TYPES` table. -/
inductive EntityType where
  | CO_MANAGED_ENTITY
  | SELF_MANAGED_ENTITY
  deriving DecidableEq, Fintype, Repr

/-- The `MODELING_KIND` table (source lines 28-30), as a total function on
the modelled enumeration. -/
def MODELING_KIND : ModelingKind → String
  | .TEMPLATE => "Template"
  | .INSTANCE => "Instance"

/-- The `ASSET_KIND` table (source lines 32-34). -/
def ASSET_KIND : AssetKind → String
  | .TYPE => "Type"
  | .INSTANCE => "Instance"

/-- The `KEY_ELEMENTS` table (source lines 36-60). -/
def KEY_ELEMENTS : KeyElements → String
  | .ASSET => "Asset"
  | .ASSET_ADMINISTRATION_SHELL => "AssetAdministrationShell"
  | .CONCEPT_DESCRIPTION => "ConceptDescription"
  | .SUBMODEL => "Submodel"
  | .ANNOTATED_RELATIONSHIP_ELEMENT => "AnnotatedRelationshipElement"
  | .BASIC_EVENT => "BasicEvent"
  | .BLOB => "Blob"
  | .CAPABILITY => "Capability"
  | .CONCEPT_DICTIONARY => "ConceptDictionary"
  | .DATA_ELEMENT => "DataElement"
  | .ENTITY => "Entity"
  | .EVENT => "Event"
  | .FILE => "File"
  | .MULTI_LANGUAGE_PROPERTY => "MultiLanguageProperty"
  | .OPERATION => "Operation"
  | .PROPERTY => "Property"
  | .RANGE => "Range"
  | .REFERENCE_ELEMENT => "ReferenceElement"
  | .RELATIONSHIP_ELEMENT => "RelationshipElement"
  | .SUBMODEL_ELEMENT => "SubmodelElement"
  | .SUBMODEL_ELEMENT_COLLECTION => "SubmodelElementCollection"
  | .VIEW => "View"
  | .GLOBAL_REFERENCE => "GlobalReference"
  | .FRAGMENT_REFERENCE => "FragmentReference"

/-- The `KEY_TYPES` table (source lines 62-67). -/
def KEY_TYPES : KeyType → String
  | .CUSTOM => "Custom"
  | .IRDI => "IRDI"
  | .IRI => "IRI"
  | .IDSHORT => "IdShort"
  | .FRAGMENT_ID => "FragmentId"

/-- The `IDENTIFIER_TYPES` table (source lines 69-72). -/
def IDENTIFIER_TYPES : IdentifierType → String
  | .CUSTOM => "Custom"
  | .IRDI => "IRDI"
  | .IRI => "IRI"

/-- The `ENTITY_TYPES` table (source lines 74-76). -/
def ENTITY_TYPES : EntityType → String
  | .CO_MANAGED_ENTITY => "CoManagedEntity"
  | .SELF_MANAGED_ENTITY => "SelfManagedEntity"

/-- Python runtime errors that the embedded module can raise. -/
inductive PyError where
  /-- `NameError: name <missing> is not defined` -/
  | nameError (missing : String)
  /-- `TypeError: <typeName> object is not callable` -/
  | notCallable (typeName : String)
  /-- `TypeError` raised explicitly with a message -/
  | typeError (msg : String)
  /-- `StopIteration` -/
  | stopIteration
  deriving DecidableEq, Repr

/-- Python values that flow into element attributes and `text` slots in
this module. -/
inductive PyVal where
  | pnone
  | pstr (s : String)
  | pdict (entries : List (String × String))
  | pIdType (t : IdentifierType)
  | pKind (k : ModelingKind)
  | plist (xs : List String)
  deriving DecidableEq, Repr

/-- The Python type name of a value, as it appears in a `TypeError`. -/
def PyVal.typeName : PyVal → String
  | .pnone => "NoneType"
  | .pstr _ => "str"
  | .pdict _ => "dict"
  | .pIdType _ => "IdentifierType"
  | .pKind _ => "ModelingKind"
  | .plist _ => "list"

/-- An `xml.etree.ElementTree.Element`: tag, attribute dictionary, `text`
slot and children. -/
inductive Element where
  | mk (tag : String) (attrib : List (String × PyVal)) (text : Option PyVal)
      (children : List Element)

/-- The element's tag. -/
def Element.tag : Element → String
  | .mk t _ _ _ => t

/-- The element's attribute dictionary. -/
def Element.attrib : Element → List (String × PyVal)
  | .mk _ a _ _ => a

/-- The element's `text` slot. -/
def Element.text : Element → Option PyVal
  | .mk _ _ tx _ => tx

/-- The element's children. -/
def Element.children : Element → List Element
  | .mk _ _ _ c => c

/-- `ET.Element(tag)`: a fresh element with no attributes, `text = None`
and no children. -/
def etElement (tag : String) : Element :=
  .mk tag [] none []

/-- `e.text(arg)`: `Element.text` is a plain attribute, not a method.  On a
fresh element it holds `None`, so calling it raises
`TypeError: <type> object is not callable`. -/
def Element.callText (e : Element) (_arg : PyVal) : Except PyError Unit :=
  match e.text with
  | none => .error (.notCallable "NoneType")
  | some v => .error (.notCallable v.typeName)

/-- `e.set(key, value)` (ElementTree stores attributes as a dict). -/
def Element.set (e : Element) (key : String) (value : PyVal) : Element :=
  match e with
  | .mk t a tx c => .mk t (a ++ [(key, value)]) tx c

/-- The assignment `e.text = value` (line 107 uses assignment, not a
call). -/
def Element.setText (e : Element) (value : PyVal) : Element :=
  match e with
  | .mk t a _ c => .mk t a (some value) c

/-- Insert into a list at an index, as `list.insert` does for children. -/
def listInsertAt {α : Type} : Nat → α → List α → List α
  | _, a, [] => [a]
  | 0, a, x :: xs => a :: x :: xs
  | n + 1, a, x :: xs => x :: listInsertAt n a xs

/-- `e.insert(i, child)`. -/
def Element.insert (e : Element) (i : Nat) (child : Element) : Element :=
  match e with
  | .mk t a tx c => .mk t a tx (listInsertAt i child c)

/-- `obj.identification`: identifier type and id value. -/
structure Identifier where
  id_type : IdentifierType
  id : String
  deriving DecidableEq, Repr

/-- `obj.administration`: optional version and revision strings. -/
structure AdministrativeInformation where
  version : Option String
  revision : Option String
  deriving DecidableEq, Repr

/-- The attributes the serializer reads from a `model.Referable` object:
`id_short`, optional `category`, language-tagged `description`, and the
method resolution order of the object's class (a list of class names, most
specific first), which line 102 would walk. -/
structure ReferableData where
  id_short : String
  category : Option String
  description : List (String × String)
  mro : List String
  deriving DecidableEq, Repr

/-- The attributes the serializer reads from a `model.Identifiable`
object. -/
structure IdentifiableData where
  identification : Identifier
  administration : Option AdministrativeInformation
  deriving DecidableEq, Repr

/-- An entity of the asset administration shell model, described by the
capabilities it exhibits: each field is `some` exactly when the
corresponding `isinstance` test of the serializer succeeds, and carries
the attributes that capability contributes.  `hasSemantics` carries the
optional `semantic_id`, `hasDataSpecification` the `data_specification`
set, `qualifiable` the `qualifier` set. -/
structure Entity where
  referable : Option ReferableData
  identifiable : Option IdentifiableData
  hasDataSpecification : Option (List String)
  hasSemantics : Option (Option String)
  hasKind : Option ModelingKind
  qualifiable : Option (List String)
  deriving DecidableEq, Repr

/-- Python truthiness of an `Optional[str]` attribute: `None` and the
empty string are falsy. -/
def pyTruthyOptStr : Option String → Bool
  | none => false
  | some s => !s.isEmpty

/-- Python truthiness of an `Optional[str]` value when passed on as an
argument (`None` stays `None`). -/
def optStrVal : Option String → PyVal
  | none => .pnone
  | some s => .pstr s

/-- Line 102 of the source:
`next(iter(t for t in inspect.getmro(type(obj)) if t in model.KEY_ELEMENTS_CLASSES))`.
The module never imports `inspect`, so executing the generator raises
`NameError: name inspect is not defined` before any class of the MRO is
examined. -/
def resolveRefType (_r : ReferableData) : Except PyError String :=
  .error (.nameError "inspect")

/-- The `if isinstance(obj, model.Referable)` block of
`abstract_classes_to_xml` (source lines 88-108), as a function of the
Referable attributes and the accumulator `elements`; the `none` case is
the failed `isinstance` test. -/
def referableBlock (ref : Option ReferableData) (elements : List Element) :
    Except PyError (List Element) :=
  match ref with
  | none => pure elements
  | some r => do
      -- et_id_short = ET.Element("aas:idShort"); et_id_short.text(obj.id_short)
      let et_id_short := etElement "aas:idShort"
      let _ ← et_id_short.callText (.pstr r.id_short)
      let elements := elements ++ [et_id_short]
      -- if obj.category:
      let elements ← if pyTruthyOptStr r.category then do
          let et_category := etElement "aas:category"
          let _ ← et_category.callText (optStrVal r.category)
          pure (elements ++ [et_category])
        else pure elements
      -- if obj.description:
      let elements ← if !r.description.isEmpty then do
          let et_description := etElement "description"
          let _ ← et_description.callText (.pdict r.description)
          pure (elements ++ [et_description])
        else pure elements
      -- try: ref_type = next(...) except StopIteration: raise TypeError(...)
      let ref_type ← match resolveRefType r with
        | .error .stopIteration =>
            .error (.typeError ("Object of type " ++ r.mro.headD "object" ++
              " is Referable but does not inherit from a known AAS type"))
        | .error e => .error e
        | .ok t => pure t
      let et_model_type := etElement "aas:modelType"
      -- et_model_type.text = a dict literal (assignment, not a call)
      let et_model_type := et_model_type.setText (.pdict [("name", ref_type)])
      pure (elements ++ [et_model_type])

/-- The `if isinstance(obj, model.Identifiable)` block (source lines
110-123). -/
def identifiableBlock (idf : Option IdentifiableData) (elements : List Element) :
    Except PyError (List Element) :=
  match idf with
  | none => pure elements
  | some i => do
      let et_identifiable :=
        (etElement "aas:identification").set "idType" (.pIdType i.identification.id_type)
      let _ ← et_identifiable.callText (.pstr i.identification.id)
      let elements := elements ++ [et_identifiable]
      -- if obj.administration:
      let elements ← match i.administration with
        | none => pure elements
        | some a => do
            let et_administration := etElement "aas:administration"
            let et_administration_version := etElement "aas:version"
            let _ ← et_administration_version.callText (optStrVal a.version)
            let et_administration_revision := etElement "aas:revision"
            let _ ← et_administration_revision.callText (optStrVal a.revision)
            let et_administration := et_administration.insert 0 et_administration_version
            let et_administration := et_administration.insert 1 et_administration_revision
            pure (elements ++ [et_administration])
      pure elements

/-- The `if isinstance(obj, model.HasDataSpecification)` block (source
lines 125-129). -/
def hasDataSpecificationBlock (dsp : Option (List String)) (elements : List Element) :
    Except PyError (List Element) :=
  match dsp with
  | none => pure elements
  | some ds =>
      if !ds.isEmpty then do
        let et_has_data_specification := etElement "aas:embeddedDataSpecification"
        let _ ← et_has_data_specification.callText (.plist ds)
        pure (elements ++ [et_has_data_specification])
      else pure elements

/-- The `if isinstance(obj, model.HasSemantics)` block (source lines
131-135). -/
def hasSemanticsBlock (sem : Option (Option String)) (elements : List Element) :
    Except PyError (List Element) :=
  match sem with
  | none => pure elements
  | some sid => match sid with
      | none => pure elements
      | some s => do
          let et_semantics := etElement "aas:semanticId"
          let _ ← et_semantics.callText (.pstr s)
          pure (elements ++ [et_semantics])

/-- The `if isinstance(obj, model.HasKind)` block (source lines
137-141). -/
def hasKindBlock (kd : Option ModelingKind) (elements : List Element) :
    Except PyError (List Element) :=
  match kd with
  | none => pure elements
  | some k =>
      if k = ModelingKind.TEMPLATE then do
        let et_modeling_kind := etElement "aas:modelingKind"
        let _ ← et_modeling_kind.callText (.pKind k)
        pure (elements ++ [et_modeling_kind])
      else pure elements

/-- The `if isinstance(obj, model.Qualifiable)` block (source lines
143-147). -/
def qualifiableBlock (ql : Option (List String)) (elements : List Element) :
    Except PyError (List Element) :=
  match ql with
  | none => pure elements
  | some q =>
      if !q.isEmpty then do
        let et_qualifiers := etElement "aas:qualifier"
        let _ ← et_qualifiers.callText (.plist q)
        pure (elements ++ [et_qualifiers])
      else pure elements

/-- The embedding of `abstract_classes_to_xml` (source lines 80-149): the
six `isinstance` blocks run in source order on the accumulator, which
starts empty.  Runtime errors of the Python code are `Except.error`
outcomes. -/
def abstract_classes_to_xml (obj : Entity) : Except PyError (List Element) := do
  let elements : List Element := []
  let elements ← referableBlock obj.referable elements
  let elements ← identifiableBlock obj.identifiable elements
  let elements ← hasDataSpecificationBlock obj.hasDataSpecification elements
  let elements ← hasSemanticsBlock obj.hasSemantics elements
  let elements ← hasKindBlock obj.hasKind elements
  let elements ← qualifiableBlock obj.qualifiable elements
  pure elements

/-- Name lookup in the module's global scope after the three imports of
lines 17-20 (`ET`, `List`, `model`). -/
def lookupGlobal (n : String) : Except PyError Unit :=
  if n = "ET" ∨ n = "List" ∨ n = "model" then .ok () else .error (.nameError n)

/-- Module initialisation: after the imports succeed, the first annotated
assignment (line 28) builds the `MODELING_KIND` dict and then evaluates
its annotation `Dict[model.ModelingKind, str]`; the name `Dict` was never
imported, so initialisation stops with a `NameError`. -/
def moduleInit : Except PyError Unit := do
  -- line 28: evaluate the annotation of MODELING_KIND
  let _ ← lookupGlobal "Dict"
  -- the remaining annotated assignments would evaluate Dict again
  let _ ← lookupGlobal "Dict"
  pure ()

/-- Does the entity exhibit at least one of the six capabilities? -/
def exhibitsAny (obj : Entity) : Bool :=
  obj.referable.isSome || obj.identifiable.isSome ||
  obj.hasDataSpecification.isSome || obj.hasSemantics.isSome ||
  obj.hasKind.isSome || obj.qualifiable.isSome

/-- The exact condition under which `abstract_classes_to_xml` reaches one
of its `Element.text` calls (and hence raises): the entity is Referable or
Identifiable, or one of the four guarded capabilities has a truthy
attribute. -/
def crashTrigger (obj : Entity) : Bool :=
  obj.referable.isSome || obj.identifiable.isSome ||
  (match obj.hasDataSpecification with
    | none => false
    | some ds => !ds.isEmpty) ||
  (match obj.hasSemantics with
    | none => false
    | some s => s.isSome) ||
  (match obj.hasKind with
    | none => false
    | some k => k = ModelingKind.TEMPLATE) ||
  (match obj.qualifiable with
    | none => false
    | some q => !q.isEmpty)

/-- Count the fragments of a given tag in an output list. -/
def countTag (tag : String) (l : List Element) : Nat :=
  (l.filter (fun e => e.tag = tag)).length

/-- `abstract_classes_to_xml` together with the entity state it leaves
behind: the body contains no assignment to any attribute of `obj` (it only
reads `obj` and mutates freshly created local elements), so the entity
comes back unchanged. -/
def runWithEntity (obj : Entity) : Except PyError (List Element) × Entity :=
  (abstract_classes_to_xml obj, obj)

/-- Complete behaviour of the embedded `abstract_classes_to_xml`: whenever
any block reaches an `Element.text` call the function raises
`TypeError: NoneType object is not callable` (a fresh element's `text`
slot holds `None`), and otherwise every guarded branch was skipped and the
accumulator is still the empty list. -/
theorem run_characterisation (obj : Entity) :
    abstract_classes_to_xml obj =
      (if crashTrigger obj then Except.error (PyError.notCallable "NoneType")
       else Except.ok []) := by
  obtain ⟨ref, idf, ds, sem, kd, ql⟩ := obj
  rcases ref with _ | r <;> rcases idf with _ | i <;>
    rcases ds with _ | (_ | ⟨d, dt⟩) <;> rcases sem with _ | (_ | s) <;>
    rcases kd with _ | (_ | _) <;> rcases ql with _ | (_ | ⟨q, qt⟩) <;> rfl

/-- Claim C1: the claim states that for every entity the fragment sequence
returned by `abstract_classes_to_xml` lists the contributions of its
exhibited capabilities in the fixed precedence order.  Code-bug evidence:
for a Referable entity (id_short "MyAsset", class `Asset`) the function
never returns a fragment sequence at all — it raises
`TypeError: NoneType object is not callable` at its first
`Element.text(...)` call. -/
theorem referable_entity_serialization_crashes :
    abstract_classes_to_xml
        (Entity.mk (some (ReferableData.mk "MyAsset" none [] ["Asset", "object"]))
          none none none none none) =
      Except.error (PyError.notCallable "NoneType") := rfl

/-- Claim C2 counterexample: the claim states that every entity exhibiting
at least one of the six capabilities makes `abstract_classes_to_xml`
raise.  False: an entity exhibiting only Qualifiable with an empty
qualifier set takes the falsy branch and returns the empty fragment
list. -/
theorem exhibiting_entity_returns_without_error :
    exhibitsAny (Entity.mk none none none none none (some [])) = true ∧
    abstract_classes_to_xml (Entity.mk none none none none none (some [])) =
      Except.ok [] :=
  ⟨rfl, rfl⟩

/-- Claim C2 as amended: the module fails at import with a `NameError` for
the unbound annotation name `Dict`; the Referable type-resolution
expression raises `NameError` for the unbound name `inspect`; and
`abstract_classes_to_xml` raises `TypeError: NoneType object is not
callable` (from calling the plain attribute `Element.text` as a function)
exactly when the entity is Referable or Identifiable or one of the four
guarded capabilities has a truthy attribute, while an entity whose
exhibited capabilities all take the falsy branch returns the empty
list. -/
theorem crash_characterisation_with_import_failure :
    moduleInit = Except.error (PyError.nameError "Dict") ∧
    (∀ r : ReferableData, resolveRefType r = Except.error (PyError.nameError "inspect")) ∧
    ∀ obj : Entity,
      (crashTrigger obj = true →
        abstract_classes_to_xml obj = Except.error (PyError.notCallable "NoneType")) ∧
      (crashTrigger obj = false → abstract_classes_to_xml obj = Except.ok []) := by
  refine ⟨rfl, fun r => rfl, fun obj => ⟨fun h => ?_, fun h => ?_⟩⟩
  all_goals (have hc := run_characterisation obj; rw [h] at hc; simpa using hc)

/-- Witness for the amended claim C2 at concrete inputs: a Referable
entity crashes, an entity exhibiting only HasKind with kind `INSTANCE`
returns the empty list. -/
theorem crash_characterisation_with_import_failure_witness :
    abstract_classes_to_xml
        (Entity.mk (some (ReferableData.mk "w" none [] ["Submodel", "object"]))
          none none none none none) =
      Except.error (PyError.notCallable "NoneType") ∧
    abstract_classes_to_xml (Entity.mk none none none none (some ModelingKind.INSTANCE) none) =
      Except.ok [] :=
  ⟨(crash_characterisation_with_import_failure.2.2
      (Entity.mk (some (ReferableData.mk "w" none [] ["Submodel", "object"]))
        none none none none none)).1 rfl,
   (crash_characterisation_with_import_failure.2.2
      (Entity.mk none none none none (some ModelingKind.INSTANCE) none)).2 rfl⟩

/-- Claim C3: the claim states that serializing an Identifiable entity
with an empty id value, or a Referable entity with an empty `id_short`,
fails with `MissingRequiredAttributeError`.  Code-bug evidence: the code
never checks either attribute for emptiness and no such error class
exists; both serializations fail with `TypeError: NoneType object is not
callable`, the same error as for any non-empty value. -/
theorem empty_required_attribute_serialization_crashes :
    abstract_classes_to_xml
        (Entity.mk none
          (some (IdentifiableData.mk (Identifier.mk IdentifierType.IRI "") none))
          none none none none) =
      Except.error (PyError.notCallable "NoneType") ∧
    abstract_classes_to_xml
        (Entity.mk (some (ReferableData.mk "" none [] ["Submodel", "object"]))
          none none none none none) =
      Except.error (PyError.notCallable "NoneType") :=
  ⟨rfl, rfl⟩

/-- Claim C4: the claim states that a Referable entity whose concrete type
matches no registered schema element type fails with
`UnresolvedTypeError`.  Code-bug evidence: for such an entity the function
raises `TypeError: NoneType object is not callable` at the id-short
fragment, before type resolution ever runs; the resolution expression
itself would raise `NameError` for the unbound name `inspect`, and its
`StopIteration` handler raises a plain `TypeError` — no
`UnresolvedTypeError` exists anywhere in the code. -/
theorem unregistered_referable_crashes_before_resolution :
    abstract_classes_to_xml
        (Entity.mk (some (ReferableData.mk "x" none [] ["UnknownThing", "object"]))
          none none none none none) =
      Except.error (PyError.notCallable "NoneType") ∧
    resolveRefType (ReferableData.mk "x" none [] ["UnknownThing", "object"]) =
      Except.error (PyError.nameError "inspect") :=
  ⟨rfl, rfl⟩

/-- Claim C5: the claim states that a HasKind entity emits a modeling-kind
fragment iff its kind is `TEMPLATE`, carrying the token "Template".
Code-bug evidence: with kind `TEMPLATE` the branch is entered but raises
`TypeError: NoneType object is not callable` instead of emitting the
fragment (and it passes the raw enum value `obj.kind`, not the
`MODELING_KIND` token); with kind `INSTANCE` the function indeed emits
zero modeling-kind fragments. -/
theorem template_kind_serialization_crashes :
    abstract_classes_to_xml (Entity.mk none none none none (some ModelingKind.TEMPLATE) none) =
      Except.error (PyError.notCallable "NoneType") ∧
    abstract_classes_to_xml (Entity.mk none none none none (some ModelingKind.INSTANCE) none) =
      Except.ok [] ∧
    MODELING_KIND ModelingKind.TEMPLATE = "Template" :=
  ⟨rfl, rfl, rfl⟩

/-- Claim C6: for every entity, each optional attribute (category,
description, semantic_id, administration, qualifier set,
data-specification set) that is empty or absent contributes zero
fragments to the returned output, never an empty-content fragment; in
particular an empty data-specification set and an empty qualifier set
yield no fragment at all. -/
theorem empty_optionals_contribute_no_fragments (obj : Entity) (l : List Element)
    (h : abstract_classes_to_xml obj = Except.ok l) :
    (∀ r, obj.referable = some r → pyTruthyOptStr r.category = false →
      countTag "aas:category" l = 0) ∧
    (∀ r, obj.referable = some r → r.description = [] →
      countTag "description" l = 0) ∧
    (∀ s, obj.hasSemantics = some s → s = none →
      countTag "aas:semanticId" l = 0) ∧
    (∀ i, obj.identifiable = some i → i.administration = none →
      countTag "aas:administration" l = 0) ∧
    (obj.hasDataSpecification = some [] →
      countTag "aas:embeddedDataSpecification" l = 0) ∧
    (obj.qualifiable = some [] → countTag "aas:qualifier" l = 0) := by
  have hc := run_characterisation obj
  rw [h] at hc
  have hl : l = [] := by
    by_cases ht : crashTrigger obj = true
    · simp [ht] at hc
    · simp [ht] at hc
      exact hc
  subst hl
  simp [countTag]

/-- Witness for claim C6 at a concrete input: an entity exhibiting
HasDataSpecification, HasSemantics and Qualifiable with all three
attributes empty serializes to the empty fragment list, so the empty
data-specification set, absent semantic id and empty qualifier set each
contribute zero fragments. -/
theorem empty_optionals_contribute_no_fragments_witness :
    countTag "aas:embeddedDataSpecification" [] = 0 ∧
    countTag "aas:semanticId" [] = 0 ∧
    countTag "aas:qualifier" [] = 0 :=
  ⟨(empty_optionals_contribute_no_fragments
      (Entity.mk none none (some []) (some none) none (some [])) [] rfl).2.2.2.2.1 rfl,
   (empty_optionals_contribute_no_fragments
      (Entity.mk none none (some []) (some none) none (some [])) [] rfl).2.2.1 none rfl rfl,
   (empty_optionals_contribute_no_fragments
      (Entity.mk none none (some []) (some none) none (some [])) [] rfl).2.2.2.2.2 rfl⟩

/-- Claim C7: the claim states that an Identifiable entity with
administration present emits an administration fragment whose children
are version then revision, omitting an absent child.  Code-bug evidence:
for an entity with administration (version "1.0", revision absent) the
function raises `TypeError: NoneType object is not callable` at the
identification fragment, before the administration block runs; the
administration block itself also calls `Element.text` as a function and
inserts both children unconditionally, with no absence check. -/
theorem administration_serialization_crashes :
    abstract_classes_to_xml
        (Entity.mk none
          (some (IdentifiableData.mk (Identifier.mk IdentifierType.IRI "https://example.com/a")
            (some (AdministrativeInformation.mk (some "1.0") none))))
          none none none none) =
      Except.error (PyError.notCallable "NoneType") := rfl

/-- Claim C8: the claim states that the identification fragment carries
the `IDENTIFIER_TYPES` token (e.g. "IRI") as its id-type attribute and
the id value as content.  Code-bug evidence: the code stores the raw enum
value of `obj.identification.id_type` in the attribute dictionary without
consulting `IDENTIFIER_TYPES`, and then raises `TypeError: NoneType
object is not callable` trying to set the content, so no identification
fragment is ever produced. -/
theorem identification_serialization_crashes_with_raw_enum_attribute :
    abstract_classes_to_xml
        (Entity.mk none
          (some (IdentifiableData.mk
            (Identifier.mk IdentifierType.IRI "https://example.com/asset/1") none))
          none none none none) =
      Except.error (PyError.notCallable "NoneType") ∧
    ((etElement "aas:identification").set "idType" (PyVal.pIdType IdentifierType.IRI)).attrib =
      [("idType", PyVal.pIdType IdentifierType.IRI)] ∧
    IDENTIFIER_TYPES IdentifierType.IRI = "IRI" :=
  ⟨rfl, rfl, rfl⟩

/-- Claim C9 counterexample: the claim states that the KeyElements
enumeration has exactly 22 variants, but the `KEY_ELEMENTS` table of the
source names 24 distinct variants. -/
theorem keyElements_has_24_variants_not_22 :
    Fintype.card KeyElements = 24 ∧ Fintype.card KeyElements ≠ 22 := by
  decide

/-- Claim C9 as amended: each enumeration table maps every value of its
(modelled) closed enumeration to exactly one external token, injectively;
the `KEY_ELEMENTS` table covers 24 KeyElements variants (not 22), KeyType
has 5, IdentifierType 3, EntityType 2, ModelingKind 2 and AssetKind 2. -/
theorem enumeration_tables_injective_with_corrected_counts :
    Function.Injective MODELING_KIND ∧ Function.Injective ASSET_KIND ∧
    Function.Injective KEY_ELEMENTS ∧ Function.Injective KEY_TYPES ∧
    Function.Injective IDENTIFIER_TYPES ∧ Function.Injective ENTITY_TYPES ∧
    Fintype.card KeyElements = 24 ∧ Fintype.card KeyType = 5 ∧
    Fintype.card IdentifierType = 3 ∧ Fintype.card EntityType = 2 ∧
    Fintype.card ModelingKind = 2 ∧ Fintype.card AssetKind = 2 := by
  refine ⟨?_, ?_, ?_, ?_, ?_, ?_, ?_, ?_, ?_, ?_, ?_, ?_⟩ <;> decide

/-- Claim C10: serialization is deterministic and side-effect-free — the
translation of `abstract_classes_to_xml` contains no assignment to any
attribute of the entity it reads, so the entity state after a run equals
the input and serializing the entity left behind by a first run yields
the same outcome as the first run. -/
theorem serialization_deterministic_and_nonmutating (obj : Entity) :
    (runWithEntity obj).2 = obj ∧
    (runWithEntity ((runWithEntity obj).2)).1 = (runWithEntity obj).1 :=
  ⟨rfl, rfl⟩

end Aas
